import Mathlib

/-!
Shallow embedding of the pokemon-card-binder application core, translated from
the TypeScript sources: the card search service (`PokemonTCGService`), the
spec-described in-memory cache / request-coalescing layer, and the binder grid
manager (`BinderGrid` in its two revisions).  Theorems at the end of the file
settle the behavioural claims about these components.
-/

/-! ## JavaScript value helpers

The TypeScript code uses `||`-defaulting over possibly-absent JSON fields and
truthiness tests over nullable strings.  These helpers mirror that semantics
over `Option`. -/

/-- JS `o || d` over an optional natural number: `undefined`/`null` and `0`
are falsy, so both fall back to the default. -/
def jsOrNat (o : Option Nat) (d : Nat) : Nat :=
  match o with
  | none => d
  | some n => if n = 0 then d else n

/-- JS `!s` over a nullable string: `null`, `undefined` and `""` are falsy. -/
def jsFalsyStr (o : Option String) : Bool :=
  match o with
  | none => true
  | some s => s = ""

/-! ## Card and search-result data model (src/types/Card.ts) -/

/-- A catalog card; only the fields the verified logic reads are embedded. -/
structure PokemonCard where
  id : String
  name : String
deriving Repr, DecidableEq

/-- The pair a search returns: an ordered card list plus the total match
count reported by the API. -/
structure SearchResult where
  data : List PokemonCard
  totalCount : Nat
deriving Repr, DecidableEq

/-- A parsed JSON body from the catalog API: both `data` and `totalCount`
may be absent. -/
structure ApiJson where
  data : Option (List PokemonCard)
  totalCount : Option Nat
deriving Repr, DecidableEq

/-- The request parameters the service sends to the catalog API. -/
structure ApiRequest where
  q : String
  page : Nat
  pageSize : Nat
  orderBy : String
deriving Repr, DecidableEq

/-! ## PokemonTCGService (src/services/PokemonTCGService.ts, current revision)

Network calls are embedded as an oracle `ApiRequest → Except Unit ApiJson`:
`.error` is a rejected `fetch`/`response.json()` promise, `.ok` a parsed JSON
body.  The current revision of `searchCards` has no `try`/`catch`, so a
rejected promise propagates — the embedding returns `Except`. -/

/-- The `q`/`page`/`pageSize`/`orderBy` parameters built by `searchCards`:
`name:${query}*`, server page, fixed page size 16, newest sets first. -/
def newestRequest (query : String) (page : Nat) : ApiRequest :=
  { q := "name:" ++ query ++ "*"
    page := page
    pageSize := 16
    orderBy := "-set.releaseDate,name" }

/-- `PokemonTCGService.searchCards` (current revision): one fetch ordered by
descending release date; missing `data`/`totalCount` default to `[]`/`0`;
a rejected fetch or JSON parse propagates (no `try`/`catch` here). -/
def searchCards (oracle : ApiRequest → Except Unit ApiJson) (query : String)
    (page : Nat) : Except Unit SearchResult :=
  match oracle (newestRequest query page) with
  | .error e => .error e
  | .ok result => .ok { data := result.data.getD [], totalCount := jsOrNat result.totalCount 0 }

/-- The hand-ordered list of recent set identifiers tried by
`searchCardsByPopularity`. -/
def recentSets : List String :=
  ["sv4pt5", "sv4", "sv3pt5", "sv3", "sv2", "sv1",
   "swsh12", "swsh11", "swsh10", "swsh9"]

/-- The scoped request `searchCardsByPopularity` issues for one candidate set:
`name:${query}* set.id:${setId}`, always page 1, page size 8, ordered by name. -/
def popularRequest (query : String) (setId : String) : ApiRequest :=
  { q := "name:" ++ query ++ "* set.id:" ++ setId
    page := 1
    pageSize := 8
    orderBy := "name" }

/-- The `for (const setId of recentSets)` loop body of
`searchCardsByPopularity`: first candidate set with a non-empty `data` array
wins (`totalCount: result.totalCount || result.data.length`); an exhausted
list falls back to `searchCards`. -/
def popularLoop (oracle : ApiRequest → Except Unit ApiJson) (query : String)
    (page : Nat) : List String → Except Unit SearchResult
  | [] => searchCards oracle query page
  | setId :: rest =>
    match oracle (popularRequest query setId) with
    | .error e => .error e
    | .ok result =>
      match result.data with
      | some cards =>
        if 0 < cards.length then
          .ok { data := cards, totalCount := jsOrNat result.totalCount cards.length }
        else popularLoop oracle query page rest
      | none => popularLoop oracle query page rest

/-- `PokemonTCGService.searchCardsByPopularity`: iterate `recentSets` in
order, return the first non-empty scoped result, else fall back to
`searchCards`. -/
def searchCardsByPopularity (oracle : ApiRequest → Except Unit ApiJson)
    (query : String) (page : Nat) : Except Unit SearchResult :=
  popularLoop oracle query page recentSets

/-! ## Legacy PokemonTCGService (src/unnamed/part_003)

The earlier service revision wraps the whole call in `try`/`catch` and checks
`response.ok`, so it can never raise: every failure mode collapses to
`{ data: [], totalCount: 0 }`. -/

/-- The outcome of `fetch` as seen by the legacy `searchCards`: a rejected
promise, or a response with an HTTP `ok` flag and a JSON body whose parse may
itself fail. -/
inductive FetchOutcome where
  | reject
  | resolve (ok : Bool) (body : Except Unit ApiJson)
deriving Repr

namespace LegacyService

/-- Legacy `PokemonTCGService.searchCards` (part_003 lines 110–146): network
rejection, non-2xx status (`throw new Error` inside the `try`) and JSON parse
failure are all caught and yield `{ data: [], totalCount: 0 }`; a parsed body
is normalized field-wise. -/
def searchCards (fetch : FetchOutcome) : SearchResult :=
  match fetch with
  | .reject => { data := [], totalCount := 0 }
  | .resolve ok body =>
    if ok then
      match body with
      | .error _ => { data := [], totalCount := 0 }
      | .ok result => { data := result.data.getD [], totalCount := jsOrNat result.totalCount 0 }
    else { data := [], totalCount := 0 }

end LegacyService

/-! ## Search cache and request coalescing

The repository's newest service revision adds an in-memory cache and in-flight
request de-duplication: its caller (the paginated `CardSearch` component,
src/unnamed/part_000) invokes `PokemonTCGService.clearCache()` and the
three-argument `searchCards(query, page, size)`, but that revision of
`PokemonTCGService.ts` is not among the source files.  The definitions below
are therefore modelled from the spec. -/

/-- Modelled from the spec: the cache key is the composite
`(strategy, query, page, pageSize)` (missing code: the cache layer of the
newest `PokemonTCGService` revision). -/
structure CacheKey where
  strategy : String
  query : String
  page : Nat
  pageSize : Nat
deriving Repr, DecidableEq

/-- Modelled from the spec: a cache entry holds a copy of a search result
plus its expiry instant (missing code: the cache layer of the newest
`PokemonTCGService` revision). -/
structure CacheEntry where
  result : SearchResult
  expiresAt : Nat
deriving Repr, DecidableEq

/-- Modelled from the spec: the client's shared mutable state — the cache
map, the set of in-flight keys, and (for stating the no-second-fetch law) a
count of network calls issued so far (missing code: the cache layer of the
newest `PokemonTCGService` revision). -/
structure ClientState where
  cache : List (CacheKey × CacheEntry)
  inflight : List CacheKey
  fetchCount : Nat
deriving Repr, DecidableEq

/-- How one `search` call is served. -/
inductive SearchOutcome where
  | noop
  | fromCache (r : SearchResult)
  | coalesced
  | fetched
deriving Repr, DecidableEq

/-- Modelled from the spec: a fixed time-to-live on the order of minutes. -/
def cacheTTL : Nat := 5 * 60 * 1000

/-- Modelled from the spec: a cache miss either joins the in-flight request
for the same key (coalescing — no new network call) or issues a fresh network
call and marks the key in flight. -/
def handleMiss (σ : ClientState) (k : CacheKey) : SearchOutcome × ClientState :=
  if k ∈ σ.inflight then (.coalesced, σ)
  else (.fetched, { σ with inflight := k :: σ.inflight, fetchCount := σ.fetchCount + 1 })

/-- Modelled from the spec: the entry point of one `search` call.  An empty
query is a no-op; an unexpired cached entry is returned without network
contact; an expired entry is purged on access and treated as a miss. -/
def searchRequest (σ : ClientState) (k : CacheKey) (now : Nat) :
    SearchOutcome × ClientState :=
  if k.query = "" then (.noop, σ)
  else
    match σ.cache.find? (fun e => e.1 = k) with
    | some e =>
      if now < e.2.expiresAt then (.fromCache e.2.result, σ)
      else handleMiss { σ with cache := σ.cache.filter (fun e => ¬ e.1 = k) } k
    | none => handleMiss σ k

/-- Modelled from the spec: settling an in-flight call clears the in-flight
marker unconditionally and stores the result keyed with a TTL from the moment
of storage — but only a successful, non-empty result is cached. -/
def settleRequest (σ : ClientState) (k : CacheKey) (now : Nat)
    (outcome : Option SearchResult) : ClientState :=
  let σ₁ := { σ with inflight := σ.inflight.erase k }
  match outcome with
  | some r =>
    if r.data.isEmpty then σ₁
    else { σ₁ with cache := (k, { result := r, expiresAt := now + cacheTTL }) :: σ₁.cache }
  | none => σ₁

/-! ## Binder data model (src/types/Binder.ts, part_002 revision) -/

/-- One slot of a binder page. -/
structure CardPosition where
  cardId : Option String
  row : Nat
  col : Nat
  isEmpty : Bool
deriving Repr, DecidableEq

instance : Inhabited CardPosition := ⟨{ cardId := none, row := 0, col := 0, isEmpty := true }⟩

/-- Grid dimensions of a binder. -/
structure Dimensions where
  rows : Nat
  cols : Nat
deriving Repr, DecidableEq

/-- The persistent binder layout (revision with the optional `maxPage`
ceiling). -/
structure BinderLayout where
  id : String
  name : String
  dimensions : Dimensions
  cardPositions : List CardPosition
  template : String
  maxPage : Option Nat
  createdAt : String
  updatedAt : String
deriving Repr, DecidableEq

/-- `createEmptyPage` (part_001 lines 17–25): one page of `rows*cols` empty
slots with `row`/`col` derived from the in-page index. -/
def createEmptyPage (rows cols : Nat) : List CardPosition :=
  (List.range (rows * cols)).map fun i =>
    { cardId := none, row := i / cols, col := i % cols, isEmpty := true }

/-- `pageSize = binder.dimensions.rows * binder.dimensions.cols`. -/
def pageSizeOf (b : BinderLayout) : Nat :=
  b.dimensions.rows * b.dimensions.cols

/-- `totalPages = Math.ceil(binder.cardPositions.length / pageSize)`. -/
def totalPagesOf (b : BinderLayout) : Nat :=
  (b.cardPositions.length + pageSizeOf b - 1) / pageSizeOf b

/-- `const maxPage = binder.maxPage || 1`: the effective page ceiling defaults
to 1 when the optional field is absent (or 0, which is falsy). -/
def maxPageOf (b : BinderLayout) : Nat :=
  jsOrNat b.maxPage 1

/-! ## Binder grid operations (src/unnamed/part_001, paginated revision) -/

/-- The `for (let i = startIdx; i < startIdx + pageSize && i < len; i++)` scan
of `handleAddCard`: index of the first empty slot in the window, if any.
Indices at or past the end of the list never match, matching the loop's
`i < newCardPositions.length` bound. -/
def firstEmptyInWindow (ps : List CardPosition) (startIdx window : Nat) : Option Nat :=
  (List.range' startIdx window).find? fun i =>
    i < ps.length ∧ (ps.getD i default).isEmpty

/-- `newCardPositions[i] = { ...newCardPositions[i], cardId: card.id,
isEmpty: false }`. -/
def fillAt (ps : List CardPosition) (i : Nat) (cardId : String) : List CardPosition :=
  ps.set i { ps.getD i default with cardId := some cardId, isEmpty := false }

/-- The visible outcome of a `BinderGrid` handler: the binder passed to
`onBinderUpdate` (the input binder when the handler bailed out), the page the
view ends on, and the capacity notification, if any. -/
structure GridResult where
  binder : BinderLayout
  page : Nat
  notification : Option String
deriving Repr, DecidableEq

/-- `handleAddCard` (part_001 lines 104–167).  Policy in order: first empty
slot of the current page; else first empty slot of the whole layout (jumping
the view there); else append a fresh page and fill its first slot — unless
`totalPages >= maxPage`, in which case nothing is updated and a capacity
notification is set. -/
def handleAddCard (card : PokemonCard) (b : BinderLayout) (page : Nat)
    (now : String) : GridResult :=
  let pageSize := pageSizeOf b
  let startIdx := (page - 1) * pageSize
  match firstEmptyInWindow b.cardPositions startIdx pageSize with
  | some i =>
    { binder := { b with cardPositions := fillAt b.cardPositions i card.id, updatedAt := now }
      page := page
      notification := none }
  | none =>
    match firstEmptyInWindow b.cardPositions 0 b.cardPositions.length with
    | some i =>
      { binder := { b with cardPositions := fillAt b.cardPositions i card.id, updatedAt := now }
        page := i / pageSize + 1
        notification := none }
    | none =>
      if maxPageOf b ≤ totalPagesOf b then
        { binder := b
          page := page
          notification := some "Cannot add card: binder is full." }
      else
        let newSlots := fillAt (createEmptyPage b.dimensions.rows b.dimensions.cols) 0 card.id
        { binder := { b with cardPositions := b.cardPositions ++ newSlots, updatedAt := now }
          page := totalPagesOf b + 1
          notification := none }

/-- `handleDragEnd` (part_001 lines 76–101).  Equal slot ids (`active.id ===
over.id`) and out-of-bounds indices bail out; otherwise the two *whole*
position records are exchanged (`{ ...overPos }` / `{ ...activePos }`). -/
def handleDragEndPositions (ps : List CardPosition) (i j : Nat) : List CardPosition :=
  if i = j then ps
  else if ps.length ≤ i ∨ ps.length ≤ j then ps
  else (ps.set i (ps.getD j default)).set j (ps.getD i default)

/-- `handleClearPage` (part_001 lines 184–206): empty every slot whose index
lies in the current page's `[startIdx, endIdx)` window. -/
def handleClearPage (b : BinderLayout) (page : Nat) (now : String) : BinderLayout :=
  let pageSize := pageSizeOf b
  let startIdx := (page - 1) * pageSize
  let endIdx := page * pageSize
  { b with
    cardPositions := b.cardPositions.mapIdx fun i p =>
      if startIdx ≤ i ∧ i < endIdx then { p with cardId := none, isEmpty := true } else p
    updatedAt := now }

/-- `handleClearBinder` (part_001 lines 208–225): empty every slot and reset
the view to page 1. -/
def handleClearBinder (b : BinderLayout) (now : String) : BinderLayout × Nat :=
  ({ b with
     cardPositions := b.cardPositions.map fun p => { p with cardId := none, isEmpty := true }
     updatedAt := now },
   1)

/-- The next-page button of the paginated `BinderGrid` (part_001 lines
277–303): on the last page it appends one empty page unless `totalPages >=
maxPage` (capacity notification, nothing updated); on earlier pages it only
advances the view. -/
def handleNextPage (b : BinderLayout) (page : Nat) (now : String) : GridResult :=
  if page = totalPagesOf b then
    if maxPageOf b ≤ totalPagesOf b then
      { binder := b, page := page, notification := some "Cannot add new page: binder is full." }
    else
      { binder := { b with
          cardPositions := b.cardPositions ++ createEmptyPage b.dimensions.rows b.dimensions.cols
          updatedAt := now }
        page := page + 1
        notification := none }
  else
    { binder := b
      page := if page < totalPagesOf b then page + 1 else totalPagesOf b
      notification := none }

/-! ## Binder grid operations (src/components/BinderGrid.tsx, earlier
single-page revision) -/

namespace BinderGridV1

/-- `handleDragEnd` (BinderGrid.tsx lines 51–87): only the `cardId` and
`isEmpty` fields of the two slots are exchanged; `row`/`col` stay with their
slots.  `isEmpty` is recomputed from JS truthiness of the moved `cardId`. -/
def handleDragEndPositions (ps : List CardPosition) (i j : Nat) : List CardPosition :=
  if i = j then ps
  else
    match ps.get? i, ps.get? j with
    | some a, some b =>
      (ps.set i { a with cardId := b.cardId, isEmpty := jsFalsyStr b.cardId }).set j
        { b with cardId := a.cardId, isEmpty := jsFalsyStr a.cardId }
    | _, _ => ps

end BinderGridV1

/-! ## Concrete instances used to exercise the theorems -/

/-- Predicate on the network oracle: the scoped popularity request for
`setId` resolves to a JSON body whose `data` field is absent or an empty
array (the "candidate set yields an empty result" case of the loop). -/
def scopedEmpty (oracle : ApiRequest → Except Unit ApiJson)
    (query setId : String) : Prop :=
  ∃ j : ApiJson, oracle (popularRequest query setId) = .ok j ∧
    (j.data = none ∨ j.data = some [])

/-- A sample catalog card. -/
def demoCard : PokemonCard := { id := "xy7-54", name := "Pikachu" }

/-- A fully occupied 1×1 binder already at its `maxPage` ceiling. -/
def fullBinder : BinderLayout :=
  { id := "b-full", name := "Full", dimensions := { rows := 1, cols := 1 }
    cardPositions := [{ cardId := some "c1", row := 0, col := 0, isEmpty := false }]
    template := "t", maxPage := some 1, createdAt := "0", updatedAt := "0" }

/-- A fully occupied 1×1 binder whose optional `maxPage` field is absent. -/
def noMaxBinder : BinderLayout :=
  { fullBinder with id := "b-nomax", maxPage := none }

/-- A 1×2 binder with one occupied and one empty slot. -/
def halfBinder : BinderLayout :=
  { id := "b-half", name := "Half", dimensions := { rows := 1, cols := 2 }
    cardPositions :=
      [{ cardId := some "c1", row := 0, col := 0, isEmpty := false },
       { cardId := none, row := 0, col := 1, isEmpty := true }]
    template := "t", maxPage := some 2, createdAt := "0", updatedAt := "0" }

/-- Two occupied slots sitting at different grid coordinates; dragging one
onto the other exhibits the whole-record exchange of the paginated
`handleDragEnd`. -/
def swapDemoPositions : List CardPosition :=
  [{ cardId := some "a", row := 0, col := 0, isEmpty := false },
   { cardId := some "b", row := 0, col := 1, isEmpty := false }]

/-- An oracle on which every request resolves to an empty `data` array. -/
def emptyOracle : ApiRequest → Except Unit ApiJson :=
  fun _ => .ok { data := some [], totalCount := some 0 }

/-- An oracle on which exactly the scoped popularity request for the first
recent set (`sv4pt5`) returns one card; everything else is empty. -/
def hitOracle : ApiRequest → Except Unit ApiJson :=
  fun r =>
    if r.q = "name:pikachu* set.id:sv4pt5" then
      .ok { data := some [demoCard], totalCount := some 2 }
    else .ok { data := some [], totalCount := some 0 }


/-! ## Helper lemmas -/

theorem getD_set_self {α : Type _} (l : List α) (i : Nat) (a d : α)
    (h : i < l.length) : (l.set i a).getD i d = a := by
  rw [List.getD_eq_getElem _ _ (by simpa using h), List.getElem_set]
  simp

theorem getD_set_of_ne {α : Type _} (l : List α) (i j : Nat) (a d : α)
    (hij : i ≠ j) : (l.set i a).getD j d = l.getD j d := by
  rcases Nat.lt_or_ge j l.length with h | h
  · rw [List.getD_eq_getElem _ _ (by simpa using h), List.getD_eq_getElem _ _ h,
      List.getElem_set]
    simp [hij]
  · rw [List.getD_eq_default _ _ (by simpa using h), List.getD_eq_default _ _ h]

theorem firstEmptyInWindow_eq_none_of_full (ps : List CardPosition)
    (hfull : ∀ p ∈ ps, p.isEmpty = false) (s w : Nat) :
    firstEmptyInWindow ps s w = none := by
  rw [firstEmptyInWindow, List.find?_eq_none]
  intro i _
  simp only [decide_eq_true_eq, not_and]
  intro hlen hempty
  have hmem : ps.getD i default ∈ ps := by
    rw [List.getD_eq_getElem _ _ hlen]
    exact List.getElem_mem _
  rw [hfull _ hmem] at hempty
  exact Bool.false_ne_true hempty

/-! ## Claim theorems -/

/-- Claim C7: for every layout and every index `i`, dragging a slot onto
itself is the identity transform on the slot sequence, in both `BinderGrid`
revisions. -/
theorem swap_self_is_identity (b : BinderLayout) (i : Nat) :
    handleDragEndPositions b.cardPositions i i = b.cardPositions ∧
    BinderGridV1.handleDragEndPositions b.cardPositions i i = b.cardPositions := by
  constructor
  · simp [handleDragEndPositions]
  · simp [BinderGridV1.handleDragEndPositions]

/-- Claim C4, counterexample: in the paginated `BinderGrid` revision,
dragging slot 0 onto slot 1 moves the `col` field along with the card — the
column stored at index 0 changes from 0 to 1, so the swap does not leave the
two slots' `row`/`col` fields unchanged. -/
theorem swap_moves_col_counterexample :
    (swapDemoPositions.getD 0 default).col = 0 ∧
    ((handleDragEndPositions swapDemoPositions 0 1).getD 0 default).col = 1 ∧
    ((handleDragEndPositions swapDemoPositions 0 1).getD 0 default).col ≠
      (swapDemoPositions.getD 0 default).col := by
  refine ⟨rfl, rfl, ?_⟩
  decide

/-- Claim C4, amended: for in-bounds distinct indices, the paginated
revision's `handleDragEnd` exchanges the two *entire* position records (the
`row`/`col` fields travel with the cards), while the earlier
`BinderGrid.tsx` revision exchanges only `cardId` and the `isEmpty` flag,
leaving each slot's `row`/`col` in place; in both revisions every other slot
is unchanged. -/
theorem swap_frame_conditions (ps : List CardPosition) (i j : Nat)
    (hij : i ≠ j) (hi : i < ps.length) (hj : j < ps.length) :
    (handleDragEndPositions ps i j).getD i default = ps.getD j default ∧
    (handleDragEndPositions ps i j).getD j default = ps.getD i default ∧
    (∀ k, k ≠ i → k ≠ j →
      (handleDragEndPositions ps i j).getD k default = ps.getD k default) ∧
    ((BinderGridV1.handleDragEndPositions ps i j).getD i default).row =
      (ps.getD i default).row ∧
    ((BinderGridV1.handleDragEndPositions ps i j).getD i default).col =
      (ps.getD i default).col ∧
    ((BinderGridV1.handleDragEndPositions ps i j).getD j default).row =
      (ps.getD j default).row ∧
    ((BinderGridV1.handleDragEndPositions ps i j).getD j default).col =
      (ps.getD j default).col ∧
    ((BinderGridV1.handleDragEndPositions ps i j).getD i default).cardId =
      (ps.getD j default).cardId ∧
    ((BinderGridV1.handleDragEndPositions ps i j).getD j default).cardId =
      (ps.getD i default).cardId ∧
    (∀ k, k ≠ i → k ≠ j →
      (BinderGridV1.handleDragEndPositions ps i j).getD k default = ps.getD k default) := by
  have hpaged : handleDragEndPositions ps i j =
      (ps.set i (ps.getD j default)).set j (ps.getD i default) := by
    rw [handleDragEndPositions]
    simp [hij, Nat.not_le_of_lt hi, Nat.not_le_of_lt hj]
  have hv1 : BinderGridV1.handleDragEndPositions ps i j =
      (ps.set i { ps.getD i default with
          cardId := (ps.getD j default).cardId
          isEmpty := jsFalsyStr (ps.getD j default).cardId }).set j
        { ps.getD j default with
          cardId := (ps.getD i default).cardId
          isEmpty := jsFalsyStr (ps.getD i default).cardId } := by
    rw [BinderGridV1.handleDragEndPositions]
    rw [List.get?_eq_getElem?, List.get?_eq_getElem?,
      List.getElem?_eq_getElem hi, List.getElem?_eq_getElem hj]
    simp [hij, List.getD_eq_getElem _ _ hi, List.getD_eq_getElem _ _ hj,
      List.getElem?_eq_getElem hi, List.getElem?_eq_getElem hj]
  refine ⟨?_, ?_, ?_, ?_, ?_, ?_, ?_, ?_, ?_, ?_⟩
  · rw [hpaged, getD_set_of_ne _ _ _ _ _ (Ne.symm hij), getD_set_self _ _ _ _ hi]
  · rw [hpaged, getD_set_self _ _ _ _ (by simpa using hj)]
  · intro k hki hkj
    rw [hpaged, getD_set_of_ne _ _ _ _ _ (Ne.symm hkj), getD_set_of_ne _ _ _ _ _ (Ne.symm hki)]
  · rw [hv1, getD_set_of_ne _ _ _ _ _ (Ne.symm hij), getD_set_self _ _ _ _ hi]
  · rw [hv1, getD_set_of_ne _ _ _ _ _ (Ne.symm hij), getD_set_self _ _ _ _ hi]
  · rw [hv1, getD_set_self _ _ _ _ (by simpa using hj)]
  · rw [hv1, getD_set_self _ _ _ _ (by simpa using hj)]
  · rw [hv1, getD_set_of_ne _ _ _ _ _ (Ne.symm hij), getD_set_self _ _ _ _ hi]
  · rw [hv1, getD_set_self _ _ _ _ (by simpa using hj)]
  · intro k hki hkj
    rw [hv1, getD_set_of_ne _ _ _ _ _ (Ne.symm hkj), getD_set_of_ne _ _ _ _ _ (Ne.symm hki)]

/-- Claim C4, witness: the amended swap law evaluated on the two-slot
demonstration layout. -/
theorem swap_frame_conditions_witness :
    (handleDragEndPositions swapDemoPositions 0 1).getD 0 default =
      swapDemoPositions.getD 1 default :=
  (swap_frame_conditions swapDemoPositions 0 1 (by decide) (by decide) (by decide)).1

/-- Claim C3: placing a card into a fully occupied layout that already sits
at its `maxPage` ceiling fails with a capacity notification and leaves the
layout (and the current page) exactly as they were. -/
theorem placeCard_full_at_ceiling (card : PokemonCard) (b : BinderLayout)
    (page : Nat) (now : String)
    (hfull : ∀ p ∈ b.cardPositions, p.isEmpty = false)
    (hcap : totalPagesOf b = maxPageOf b) :
    handleAddCard card b page now =
      { binder := b, page := page, notification := some "Cannot add card: binder is full." } := by
  rw [handleAddCard]
  rw [firstEmptyInWindow_eq_none_of_full b.cardPositions hfull,
    firstEmptyInWindow_eq_none_of_full b.cardPositions hfull]
  simp [hcap]

/-- Claim C3, witness: the capacity failure on a concrete full 1×1 binder at
`maxPage = 1`. -/
theorem placeCard_full_at_ceiling_witness :
    handleAddCard demoCard fullBinder 1 "now" =
      { binder := fullBinder, page := 1,
        notification := some "Cannot add card: binder is full." } :=
  placeCard_full_at_ceiling demoCard fullBinder 1 "now" (by decide) (by decide)

/-- Claim C10: when the optional `maxPage` field is absent, `binder.maxPage
|| 1` makes the effective ceiling 1, so a fully occupied layout rejects both
`placeCard` and the manual next-page append with a capacity error and no
layout change. -/
theorem absent_maxPage_defaults_to_one (card : PokemonCard) (b : BinderLayout)
    (page : Nat) (now : String)
    (hmax : b.maxPage = none)
    (hfull : ∀ p ∈ b.cardPositions, p.isEmpty = false)
    (hlen : 0 < b.cardPositions.length)
    (hps : 0 < pageSizeOf b)
    (hpage : page = totalPagesOf b) :
    maxPageOf b = 1 ∧
    (handleAddCard card b page now).binder = b ∧
    (handleAddCard card b page now).notification.isSome = true ∧
    (handleNextPage b page now).binder = b ∧
    (handleNextPage b page now).notification.isSome = true := by
  have hone : maxPageOf b = 1 := by rw [maxPageOf, hmax]; rfl
  have htp : 1 ≤ totalPagesOf b := by
    rw [totalPagesOf, Nat.one_le_div_iff hps]
    omega
  have hguard : maxPageOf b ≤ totalPagesOf b := by omega
  refine ⟨hone, ?_, ?_, ?_, ?_⟩
  · rw [handleAddCard]
    rw [firstEmptyInWindow_eq_none_of_full b.cardPositions hfull,
      firstEmptyInWindow_eq_none_of_full b.cardPositions hfull]
    simp [hguard]
  · rw [handleAddCard]
    rw [firstEmptyInWindow_eq_none_of_full b.cardPositions hfull,
      firstEmptyInWindow_eq_none_of_full b.cardPositions hfull]
    simp [hguard]
  · rw [handleNextPage]
    simp [hpage, hguard]
  · rw [handleNextPage]
    simp [hpage, hguard]

/-- Claim C10, witness: the default ceiling of 1 on a concrete full 1×1
binder without a `maxPage` field. -/
theorem absent_maxPage_defaults_to_one_witness :
    maxPageOf noMaxBinder = 1 ∧
    (handleAddCard demoCard noMaxBinder 1 "now").binder = noMaxBinder ∧
    (handleAddCard demoCard noMaxBinder 1 "now").notification.isSome = true ∧
    (handleNextPage noMaxBinder 1 "now").binder = noMaxBinder ∧
    (handleNextPage noMaxBinder 1 "now").notification.isSome = true :=
  absent_maxPage_defaults_to_one demoCard noMaxBinder 1 "now" (by decide)
    (by decide) (by decide) (by decide) (by decide)

theorem length_fillAt (ps : List CardPosition) (i : Nat) (cid : String) :
    (fillAt ps i cid).length = ps.length := by
  rw [fillAt, List.length_set]

theorem length_createEmptyPage (rows cols : Nat) :
    (createEmptyPage rows cols).length = rows * cols := by
  rw [createEmptyPage, List.length_map, List.length_range]

/-- Claim C5: starting from a layout whose slot count is a multiple of
`rows*cols`, every mutating grid operation — `placeCard`, the slot swap, the
page clear, the binder clear, and the next-page append — returns a slot
sequence whose length is still a multiple of `rows*cols`. -/
theorem mutations_preserve_page_multiple (b : BinderLayout)
    (hmul : b.cardPositions.length % pageSizeOf b = 0) :
    (∀ card page now,
      (handleAddCard card b page now).binder.cardPositions.length % pageSizeOf b = 0) ∧
    (∀ i j, (handleDragEndPositions b.cardPositions i j).length % pageSizeOf b = 0) ∧
    (∀ page now, (handleClearPage b page now).cardPositions.length % pageSizeOf b = 0) ∧
    (∀ now, ((handleClearBinder b now).1.cardPositions.length % pageSizeOf b = 0)) ∧
    (∀ page now,
      (handleNextPage b page now).binder.cardPositions.length % pageSizeOf b = 0) := by
  refine ⟨?_, ?_, ?_, ?_, ?_⟩
  · intro card page now
    rw [handleAddCard]
    split
    · simpa [length_fillAt] using hmul
    · split
      · simpa [length_fillAt] using hmul
      · split
        · exact hmul
        · simp only [List.length_append, length_fillAt, length_createEmptyPage, pageSizeOf]
          rw [Nat.add_mod_right]
          simpa [pageSizeOf] using hmul
  · intro i j
    rw [handleDragEndPositions]
    split
    · exact hmul
    · split
      · exact hmul
      · simpa [List.length_set] using hmul
  · intro page now
    simpa [handleClearPage, List.length_mapIdx] using hmul
  · intro now
    simpa [handleClearBinder, List.length_map] using hmul
  · intro page now
    rw [handleNextPage]
    split
    · split
      · exact hmul
      · simp only [List.length_append, length_createEmptyPage, pageSizeOf]
        rw [Nat.add_mod_right]
        simpa [pageSizeOf] using hmul
    · exact hmul

/-- Claim C5, witness: the preservation law applied to the concrete full 1×1
binder, whose single slot is a multiple of its page size. -/
theorem mutations_preserve_page_multiple_witness :
    (handleAddCard demoCard fullBinder 1 "now").binder.cardPositions.length %
      pageSizeOf fullBinder = 0 :=
  (mutations_preserve_page_multiple fullBinder (by decide)).1 demoCard 1 "now"

/-- Claim C6: when the current page still has an empty slot, `placeCard`
fills the first empty slot of that page and the slot-sequence length — hence
`totalPages` — is unchanged. -/
theorem placeCard_same_page_keeps_totalPages (card : PokemonCard)
    (b : BinderLayout) (page : Nat) (now : String)
    (h : ∃ i, (page - 1) * pageSizeOf b ≤ i ∧
      i < (page - 1) * pageSizeOf b + pageSizeOf b ∧
      i < b.cardPositions.length ∧
      (b.cardPositions.getD i default).isEmpty = true) :
    ∃ i₀,
      firstEmptyInWindow b.cardPositions ((page - 1) * pageSizeOf b) (pageSizeOf b) =
        some i₀ ∧
      handleAddCard card b page now =
        { binder :=
            { b with
              cardPositions := fillAt b.cardPositions i₀ card.id
              updatedAt := now }
          page := page
          notification := none } ∧
      (handleAddCard card b page now).binder.cardPositions.length =
        b.cardPositions.length ∧
      totalPagesOf (handleAddCard card b page now).binder = totalPagesOf b := by
  obtain ⟨i, h1, h2, h3, h4⟩ := h
  rw [List.getD_eq_getElem _ _ h3] at h4
  have hsome : (firstEmptyInWindow b.cardPositions ((page - 1) * pageSizeOf b)
      (pageSizeOf b)).isSome = true := by
    rw [firstEmptyInWindow, List.find?_isSome]
    refine ⟨i, ?_, ?_⟩
    · rw [List.mem_range'_1]
      exact ⟨h1, h2⟩
    · simp [h3, h4]
  obtain ⟨i₀, hi₀⟩ := Option.isSome_iff_exists.mp hsome
  refine ⟨i₀, hi₀, ?_, ?_, ?_⟩
  · rw [handleAddCard, hi₀]
  · rw [handleAddCard, hi₀]
    simp [length_fillAt]
  · rw [handleAddCard, hi₀]
    simp [totalPagesOf, pageSizeOf, length_fillAt]

/-- Claim C6, witness: placing into the half-full 1×2 binder on page 1 keeps
its slot count. -/
theorem placeCard_same_page_keeps_totalPages_witness :
    (handleAddCard demoCard halfBinder 1 "now").binder.cardPositions.length =
      halfBinder.cardPositions.length := by
  obtain ⟨i₀, h1, h2, h3, h4⟩ :=
    placeCard_same_page_keeps_totalPages demoCard halfBinder 1 "now"
      ⟨1, by decide, by decide, by decide, by decide⟩
  exact h3

theorem firstEmptyInWindow_zero_of_empty_head (ps : List CardPosition) (w : Nat)
    (hlen : 0 < ps.length) (hw : 0 < w)
    (h0 : (ps.getD 0 default).isEmpty = true) :
    firstEmptyInWindow ps 0 w = some 0 := by
  obtain ⟨w', rfl⟩ := Nat.exists_eq_succ_of_ne_zero (Nat.pos_iff_ne_zero.mp hw)
  rw [List.getD_eq_getElem _ _ hlen] at h0
  rw [firstEmptyInWindow, List.range'_succ, List.find?_cons]
  simp [hlen, h0]

theorem handleAddCard_page1_empty_head (card : PokemonCard) (b : BinderLayout)
    (now : String) (hlen : 0 < b.cardPositions.length)
    (h0 : (b.cardPositions.getD 0 default).isEmpty = true) :
    (handleAddCard card b 1 now).binder.cardPositions =
      fillAt b.cardPositions 0 card.id := by
  rcases Nat.eq_zero_or_pos (pageSizeOf b) with hps | hps
  · have hw1 : firstEmptyInWindow b.cardPositions ((1 - 1) * pageSizeOf b)
        (pageSizeOf b) = none := by
      rw [firstEmptyInWindow, hps]
      rfl
    rw [handleAddCard, hw1,
      firstEmptyInWindow_zero_of_empty_head b.cardPositions _ hlen hlen h0]
  · rw [handleAddCard, show (1 - 1) * pageSizeOf b = 0 from by simp,
      firstEmptyInWindow_zero_of_empty_head b.cardPositions _ hlen hps h0]

/-- Claim C9: clearing the whole binder (which resets the view to page 1)
and then placing a card puts that card into the slot at index 0. -/
theorem clearAll_then_placeCard_fills_index_zero (card : PokemonCard)
    (b : BinderLayout) (now₁ now₂ : String)
    (hlen : 0 < b.cardPositions.length) :
    (handleAddCard card (handleClearBinder b now₁).1 (handleClearBinder b now₁).2
        now₂).binder.cardPositions =
      fillAt (handleClearBinder b now₁).1.cardPositions 0 card.id ∧
    ((handleAddCard card (handleClearBinder b now₁).1 (handleClearBinder b now₁).2
        now₂).binder.cardPositions.getD 0 default).cardId = some card.id := by
  have hlen' : 0 < (handleClearBinder b now₁).1.cardPositions.length := by
    simpa [handleClearBinder] using hlen
  have h0 : ((handleClearBinder b now₁).1.cardPositions.getD 0 default).isEmpty = true := by
    rw [List.getD_eq_getElem _ _ hlen']
    simp [handleClearBinder]
  have h2 : (handleClearBinder b now₁).2 = 1 := rfl
  have hmain := handleAddCard_page1_empty_head card (handleClearBinder b now₁).1 now₂ hlen' h0
  refine ⟨?_, ?_⟩
  · rw [h2]
    exact hmain
  · rw [h2, hmain, fillAt, getD_set_self _ _ _ _ hlen']

/-- Claim C9, witness: clear-then-place on the concrete half-full binder puts
the card at index 0. -/
theorem clearAll_then_placeCard_fills_index_zero_witness :
    ((handleAddCard demoCard (handleClearBinder halfBinder "t1").1
        (handleClearBinder halfBinder "t1").2 "t2").binder.cardPositions.getD 0
        default).cardId = some demoCard.id :=
  (clearAll_then_placeCard_fills_index_zero demoCard halfBinder "t1" "t2" (by decide)).2

/-- Claim C2, counterexample: the current revision of
`PokemonTCGService.searchCards` has no `try`/`catch`, so a rejected fetch
propagates to the caller as an exception instead of yielding
`{ data: [], totalCount: 0 }`. -/
theorem searchCards_raises_counterexample :
    searchCards (fun _ => .error ()) "pikachu" 1 = .error () := rfl

/-- Claim C2, amended: the legacy (part_003) `searchCards` never raises —
network rejection, non-2xx status and parse failure all yield
`{ data: [], totalCount: 0 }`, and missing `data`/`totalCount` fields are
normalized to `[]`/`0`; the current revision normalizes missing fields the
same way on a successful response but propagates fetch/parse failures. -/
theorem searchCards_error_normalization :
    LegacyService.searchCards .reject = { data := [], totalCount := 0 } ∧
    (∀ body, LegacyService.searchCards (.resolve false body) =
      { data := [], totalCount := 0 }) ∧
    LegacyService.searchCards (.resolve true (.error ())) =
      { data := [], totalCount := 0 } ∧
    (∀ d tc, LegacyService.searchCards (.resolve true (.ok { data := d, totalCount := tc })) =
      { data := d.getD [], totalCount := jsOrNat tc 0 }) ∧
    (∀ oracle query page, oracle (newestRequest query page) = .error () →
      searchCards oracle query page = .error ()) ∧
    (∀ oracle query page d tc,
      oracle (newestRequest query page) = .ok { data := d, totalCount := tc } →
      searchCards oracle query page =
        .ok { data := d.getD [], totalCount := jsOrNat tc 0 }) := by
  refine ⟨rfl, fun body => rfl, rfl, fun d tc => rfl, ?_, ?_⟩
  · intro oracle query page h
    rw [searchCards, h]
  · intro oracle query page d tc h
    rw [searchCards, h]

/-- Claim C2, witness: the normalization law evaluated on a response with
both fields missing. -/
theorem searchCards_error_normalization_witness :
    searchCards (fun _ => .ok { data := none, totalCount := none }) "eevee" 1 =
      .ok { data := [], totalCount := 0 } :=
  searchCards_error_normalization.2.2.2.2.2
    (fun _ => .ok { data := none, totalCount := none }) "eevee" 1 none none rfl

theorem popularLoop_all_empty (oracle : ApiRequest → Except Unit ApiJson)
    (query : String) (page : Nat) :
    ∀ sets : List String, (∀ s ∈ sets, scopedEmpty oracle query s) →
      popularLoop oracle query page sets = searchCards oracle query page := by
  intro sets
  induction sets with
  | nil => intro _; rfl
  | cons s rest ih =>
    intro hall
    obtain ⟨j, hj, hdata⟩ := hall s (by simp)
    have hrest := ih fun s' hs' => hall s' (by simp [hs'])
    rw [popularLoop, hj]
    rcases hdata with h | h <;> simp [h, hrest]

theorem popularLoop_first_nonempty (oracle : ApiRequest → Except Unit ApiJson)
    (query : String) (page : Nat) (s : String) (post : List String)
    (cards : List PokemonCard) (tc : Option Nat)
    (hs : oracle (popularRequest query s) = .ok { data := some cards, totalCount := tc })
    (hne : cards ≠ []) :
    ∀ pre : List String, (∀ s' ∈ pre, scopedEmpty oracle query s') →
      popularLoop oracle query page (pre ++ s :: post) =
        .ok { data := cards, totalCount := jsOrNat tc cards.length } := by
  intro pre
  induction pre with
  | nil =>
    intro _
    rw [List.nil_append, popularLoop, hs]
    simp [List.length_pos.mpr hne]
  | cons p pre' ih =>
    intro hall
    obtain ⟨j, hj, hdata⟩ := hall p (by simp)
    have hrest := ih fun s' hs' => hall s' (by simp [hs'])
    rw [List.cons_append, popularLoop, hj]
    rcases hdata with h | h <;> simp [h, hrest]

/-- Claim C8: `searchCardsByPopularity` walks the fixed `recentSets` list in
order, issuing the scoped name-and-set request for each; the first candidate
whose response carries a non-empty `data` array is returned (with the JS
`totalCount || data.length` default), and when every candidate yields an
empty result the call falls back to the plain `searchCards` (newest)
strategy for the same query. -/
theorem popularity_first_hit_or_fallback :
    (∀ (oracle : ApiRequest → Except Unit ApiJson) (query : String) (page : Nat)
      (pre : List String) (s : String) (post : List String)
      (cards : List PokemonCard) (tc : Option Nat),
      recentSets = pre ++ s :: post →
      (∀ s' ∈ pre, scopedEmpty oracle query s') →
      oracle (popularRequest query s) = .ok { data := some cards, totalCount := tc } →
      cards ≠ [] →
      searchCardsByPopularity oracle query page =
        .ok { data := cards, totalCount := jsOrNat tc cards.length }) ∧
    (∀ (oracle : ApiRequest → Except Unit ApiJson) (query : String) (page : Nat),
      (∀ s ∈ recentSets, scopedEmpty oracle query s) →
      searchCardsByPopularity oracle query page = searchCards oracle query page) := by
  constructor
  · intro oracle query page pre s post cards tc hsplit hpre hs hne
    rw [searchCardsByPopularity, hsplit]
    exact popularLoop_first_nonempty oracle query page s post cards tc hs hne pre hpre
  · intro oracle query page hall
    rw [searchCardsByPopularity]
    exact popularLoop_all_empty oracle query page recentSets hall

/-- Claim C8, witness: on one oracle every candidate set is empty and the
popularity search equals the newest-strategy search; on another the very
first candidate set (`sv4pt5`) has a hit and is returned with its reported
total count. -/
theorem popularity_first_hit_or_fallback_witness :
    searchCardsByPopularity emptyOracle "pikachu" 1 = searchCards emptyOracle "pikachu" 1 ∧
    searchCardsByPopularity hitOracle "pikachu" 1 =
      .ok { data := [demoCard], totalCount := 2 } := by
  constructor
  · exact popularity_first_hit_or_fallback.2 emptyOracle "pikachu" 1
      (fun s _ => ⟨{ data := some [], totalCount := some 0 }, rfl, Or.inr rfl⟩)
  · exact popularity_first_hit_or_fallback.1 hitOracle "pikachu" 1 []
      "sv4pt5" ["sv4", "sv3pt5", "sv3", "sv2", "sv1", "swsh12", "swsh11", "swsh10", "swsh9"]
      [demoCard] (some 2) rfl (by simp) rfl (by decide)

theorem searchRequest_fetched_state (σ₀ : ClientState) (k : CacheKey) (t₀ : Nat)
    (hfetch : (searchRequest σ₀ k t₀).1 = .fetched) :
    (searchRequest σ₀ k t₀).2.cache.find? (fun e => e.1 = k) = none ∧
    k ∈ (searchRequest σ₀ k t₀).2.inflight ∧
    (searchRequest σ₀ k t₀).2.fetchCount = σ₀.fetchCount + 1 ∧
    k.query ≠ "" := by
  by_cases hq : k.query = ""
  · rw [searchRequest, if_pos hq] at hfetch
    exact absurd hfetch (by simp)
  rcases hfind : σ₀.cache.find? (fun e => e.1 = k) with _ | e
  · have heq : searchRequest σ₀ k t₀ = handleMiss σ₀ k := by
      rw [searchRequest, if_neg hq, hfind]
    by_cases hin : k ∈ σ₀.inflight
    · rw [heq] at hfetch
      simp [handleMiss, hin] at hfetch
    · rw [heq]
      refine ⟨?_, ?_, ?_, hq⟩ <;> simp [handleMiss, hin, hfind]
  · by_cases hexp : t₀ < e.2.expiresAt
    · have heq : searchRequest σ₀ k t₀ = (.fromCache e.2.result, σ₀) := by
        rw [searchRequest, if_neg hq, hfind]
        simp [hexp]
      rw [heq] at hfetch
      simp at hfetch
    · have heq : searchRequest σ₀ k t₀ =
          handleMiss { σ₀ with cache := σ₀.cache.filter (fun x => ¬ x.1 = k) } k := by
        rw [searchRequest, if_neg hq, hfind]
        simp [hexp]
      by_cases hin : k ∈ σ₀.inflight
      · rw [heq] at hfetch
        simp [handleMiss, hin] at hfetch
      · have hnone : (σ₀.cache.filter (fun x => ¬ x.1 = k)).find?
            (fun x => x.1 = k) = none := by
          rw [List.find?_eq_none]
          intro x hx
          have hmem := (List.mem_filter.mp hx).2
          simpa using hmem
        rw [heq]
        refine ⟨?_, ?_, ?_, hq⟩ <;> simp [handleMiss, hin, hnone]

/-- Claim C1: once a first search for a key `(strategy, query, page,
pageSize)` with a non-empty query has gone to the network, a second search
for the same key performs no further network call: while the first call is
in flight it is coalesced onto it, and after the first call settles with a
non-empty result any search within the TTL is served from the cache — in
every case the total network-call count stays at one. -/
theorem second_search_within_ttl_no_refetch (σ₀ : ClientState) (k : CacheKey)
    (t₀ t₁ t₂ : Nat) (r : SearchResult)
    (hfetch : (searchRequest σ₀ k t₀).1 = .fetched)
    (hne : r.data ≠ [])
    (httl : t₂ < t₁ + cacheTTL) :
    (searchRequest σ₀ k t₀).2.fetchCount = σ₀.fetchCount + 1 ∧
    (∀ t, (searchRequest (searchRequest σ₀ k t₀).2 k t).1 = .coalesced ∧
      (searchRequest (searchRequest σ₀ k t₀).2 k t).2.fetchCount = σ₀.fetchCount + 1) ∧
    (searchRequest (settleRequest (searchRequest σ₀ k t₀).2 k t₁ (some r)) k t₂).1 =
      .fromCache r ∧
    (searchRequest (settleRequest (searchRequest σ₀ k t₀).2 k t₁ (some r)) k t₂).2.fetchCount =
      σ₀.fetchCount + 1 := by
  obtain ⟨hcache, hin, hcount, hq⟩ := searchRequest_fetched_state σ₀ k t₀ hfetch
  have hemp : r.data.isEmpty = false := by
    cases hd : r.data
    · exact absurd hd hne
    · rfl
  have hσ₂ : settleRequest (searchRequest σ₀ k t₀).2 k t₁ (some r) =
      { cache := (k, { result := r, expiresAt := t₁ + cacheTTL }) ::
          (searchRequest σ₀ k t₀).2.cache
        inflight := (searchRequest σ₀ k t₀).2.inflight.erase k
        fetchCount := (searchRequest σ₀ k t₀).2.fetchCount } := by
    rw [settleRequest]
    simp [hemp]
  have heq2 : searchRequest (settleRequest (searchRequest σ₀ k t₀).2 k t₁ (some r)) k t₂ =
      (.fromCache r, settleRequest (searchRequest σ₀ k t₀).2 k t₁ (some r)) := by
    rw [hσ₂, searchRequest, if_neg hq]
    simp [List.find?_cons, httl]
  refine ⟨hcount, ?_, ?_, ?_⟩
  · intro t
    have heq : searchRequest (searchRequest σ₀ k t₀).2 k t =
        (.coalesced, (searchRequest σ₀ k t₀).2) := by
      rw [searchRequest, if_neg hq, hcache]
      simp [handleMiss, hin]
    rw [heq]
    exact ⟨rfl, hcount⟩
  · rw [heq2]
  · rw [heq2, hσ₂]
    exact hcount

/-- Claim C1, witness: the law on a concrete empty client state, key and
times — the first call fetches, the second (within the TTL of the stored
result) is served from the cache. -/
theorem second_search_within_ttl_no_refetch_witness :
    (searchRequest (settleRequest
        (searchRequest { cache := [], inflight := [], fetchCount := 0 }
          { strategy := "newest", query := "pikachu", page := 1, pageSize := 16 } 0).2
        { strategy := "newest", query := "pikachu", page := 1, pageSize := 16 } 100
        (some { data := [demoCard], totalCount := 150 }))
      { strategy := "newest", query := "pikachu", page := 1, pageSize := 16 } 200).1 =
      .fromCache { data := [demoCard], totalCount := 150 } :=
  (second_search_within_ttl_no_refetch
    { cache := [], inflight := [], fetchCount := 0 }
    { strategy := "newest", query := "pikachu", page := 1, pageSize := 16 }
    0 100 200 { data := [demoCard], totalCount := 150 }
    (by decide) (by decide) (by decide)).2.2.1
